import Mathlib

/-!
Shallow embedding of `src/generate_amazon_data.py` and `src/app.py`
(AmazondataEDA): a synthetic-sales-data generator and the filter/aggregate
layer of a dashboard over the generated table.

Modelling conventions:
* Money-like quantities are rationals (`ℚ`); the Python code works on IEEE
  doubles, but every claim settled here is robust far beyond double rounding
  error, and the spec's quantities are exact decimals.
* Calendar dates are day offsets (`ℤ`) from the generator's epoch
  2023-01-01 (`start_date` in `generate_amazon_data.py` line 33).
* Python's `round(x, 2)` (round half to even on the mathematical value) is
  `round2` below.
* The random draws of one loop iteration of `generate_amazon_sales_data`
  (lines 35-93) are gathered in a `Draws` structure; the loop body that turns
  the draws into a stored row (lines 95-129) is the function `mkRecord`.
  `ValidDraws` records the ranges the sampling primitives can produce.
* A pandas operation that raises on empty input is modelled as returning
  `none` (`Option`), per the convention that fallible code returns `Option`.
-/

/-- Round half to even to the nearest integer, as Python's builtin `round`
does on the exact value: on a tie the even neighbour of `q` is chosen,
otherwise the nearest integer (Mathlib's `round`, which only differs from
half-even at ties). -/
def roundHalfEven (q : ℚ) : ℤ :=
  if q - ⌊q⌋ = 1/2 then (if 2 ∣ ⌊q⌋ then ⌊q⌋ else ⌊q⌋ + 1) else round q

/-- Python's `round(x, 2)` (generate_amazon_data.py lines 101, 104, 105, 114). -/
def round2 (q : ℚ) : ℚ := (roundHalfEven (q * 100) : ℚ) / 100

/-- One stored row of `amazon_sales_data.csv`: the dict literal of
generate_amazon_data.py lines 95-115 plus the derived columns of
lines 121-129.  Dates are day offsets from 2023-01-01. -/
structure Record where
  orderId : String
  orderDate : ℤ
  deliveryDate : ℤ
  category : String
  subcategory : String
  productPrice : ℚ
  quantity : ℕ
  discountPercent : ℕ
  discountAmount : ℚ
  finalPrice : ℚ
  paymentMethod : String
  customerSegment : String
  city : String
  customerRating : ℕ
  reviewLength : String
  deliveryDays : ℕ
  deliveryStatus : String
  returned : String
  profitMargin : ℚ
  orderMonth : ℕ
  orderDayOfWeek : ℕ
  orderQuarter : ℕ
  orderDayName : String
deriving DecidableEq, Repr

/-- The random draws of one iteration of the generator loop
(generate_amazon_data.py lines 35-93), taken as inputs: `i` is the loop
index, `orderOffset` is `random.randint(0, 365)` of line 87, `profitFactor`
is `np.random.uniform(0.2, 0.4)` of line 93, the rest are the sampled
fields under their code names. -/
structure Draws where
  i : ℕ
  category : String
  subcategory : String
  price : ℚ
  quantity : ℕ
  discountPercent : ℕ
  rating : ℕ
  reviewLength : String
  deliveryDays : ℕ
  deliveryStatus : String
  returnStatus : String
  customerSegment : String
  paymentMethod : String
  city : String
  orderOffset : ℕ
  profitFactor : ℚ
deriving DecidableEq, Repr

/-- The price interval `np.random.uniform` is called with for each category
(generate_amazon_data.py lines 41-50); the final `else` branch is
Sports & Outdoors. -/
def priceRange (cat : String) : ℚ × ℚ :=
  if cat = "Electronics" then (500, 150000)
  else if cat = "Clothing" then (200, 5000)
  else if cat = "Books" then (100, 2000)
  else if cat = "Home & Kitchen" then (300, 30000)
  else (500, 20000)

/-- The ranges the sampling calls of generate_amazon_data.py lines 35-93 can
produce: `np.random.uniform(a, b)` lies in `[a, b)`, `np.random.randint(1, 6)`
in `1..5`, `np.random.randint(1, 11)` in `1..10`, `random.randint(0, 365)` in
`0..365`, `np.random.choice` draws from its listed values. -/
def ValidDraws (d : Draws) : Prop :=
  (priceRange d.category).1 ≤ d.price ∧ d.price < (priceRange d.category).2 ∧
  1 ≤ d.quantity ∧ d.quantity ≤ 5 ∧
  d.discountPercent ∈ [0, 5, 10, 15, 20, 25, 30] ∧
  d.rating ∈ [1, 2, 3, 4, 5] ∧
  1 ≤ d.deliveryDays ∧ d.deliveryDays ≤ 10 ∧
  d.orderOffset ≤ 365 ∧
  1/5 ≤ d.profitFactor ∧ d.profitFactor ≤ 2/5

instance (d : Draws) : Decidable (ValidDraws d) := by
  unfold ValidDraws; infer_instance

/-- Exact (pre-rounding) `discount_amount` of generate_amazon_data.py
line 57: `(price * quantity * discount_percent) / 100`. -/
def exactDiscountAmount (d : Draws) : ℚ :=
  d.price * d.quantity * d.discountPercent / 100

/-- Exact (pre-rounding) `final_price` of generate_amazon_data.py line 60:
`(price * quantity) - discount_amount`. -/
def exactFinalPrice (d : Draws) : ℚ :=
  d.price * d.quantity - exactDiscountAmount d

/-- Month lengths walked by date arithmetic starting at the epoch
2023-01-01: the twelve months of 2023 (not a leap year) followed by
January 2024, which is as far as an order offset of at most 365 can reach. -/
def monthTable : List ℕ := [31, 28, 31, 30, 31, 30, 31, 31, 30, 31, 30, 31, 31]

/-- Walk a month-length table: month index (1-based, continuing past a year
boundary) of the day `o` days after the first day of the table. -/
def monthIndexFrom : List ℕ → ℕ → ℕ → ℕ
  | [], _, m => m
  | len :: rest, o, m => if o < len then m else monthIndexFrom rest (o - len) (m + 1)

/-- Calendar month (1-12) of the order date `o` days after 2023-01-01; models
`pd.to_datetime(df[ "Order_Date" ]).dt.month` (generate_amazon_data.py
line 122). -/
def orderMonthOf (o : ℕ) : ℕ := (monthIndexFrom monthTable o 1 - 1) % 12 + 1

/-- Day of week, Monday = 0, of the order date `o` days after 2023-01-01
(which was a Sunday, hence 6); models `.dt.dayofweek` (line 123). -/
def orderDayOfWeekOf (o : ℕ) : ℕ := (o + 6) % 7

/-- Calendar quarter of the order date; models `.dt.quarter` (line 124). -/
def orderQuarterOf (o : ℕ) : ℕ := (orderMonthOf o + 2) / 3

/-- The `day_names` dict of generate_amazon_data.py lines 127-128 applied to
the day-of-week index (line 129). -/
def dayNameOf (w : ℕ) : String :=
  if w = 0 then "Monday"
  else if w = 1 then "Tuesday"
  else if w = 2 then "Wednesday"
  else if w = 3 then "Thursday"
  else if w = 4 then "Friday"
  else if w = 5 then "Saturday"
  else "Sunday"

/-- The loop body of `generate_amazon_sales_data` (generate_amazon_data.py
lines 35-129): build the stored row from one iteration's draws.
`order_date = start_date + timedelta(days=orderOffset)` is the offset itself,
`delivery_date = order_date + timedelta(days=delivery_days)` (line 90),
`profit_margin = final_price * profitFactor` (line 93); `Product_Price`,
`Discount_Amount`, `Final_Price`, `Profit_Margin` are rounded to 2 decimals
on storage (lines 101-114); the derived date columns follow lines 121-129. -/
def mkRecord (d : Draws) : Record :=
  { orderId := "ORD" ++ toString (10000 + d.i)
    orderDate := (d.orderOffset : ℤ)
    deliveryDate := (d.orderOffset : ℤ) + (d.deliveryDays : ℤ)
    category := d.category
    subcategory := d.subcategory
    productPrice := round2 d.price
    quantity := d.quantity
    discountPercent := d.discountPercent
    discountAmount := round2 (exactDiscountAmount d)
    finalPrice := round2 (exactFinalPrice d)
    paymentMethod := d.paymentMethod
    customerSegment := d.customerSegment
    city := d.city
    customerRating := d.rating
    reviewLength := d.reviewLength
    deliveryDays := d.deliveryDays
    deliveryStatus := d.deliveryStatus
    returned := d.returnStatus
    profitMargin := round2 (exactFinalPrice d * d.profitFactor)
    orderMonth := orderMonthOf d.orderOffset
    orderDayOfWeek := orderDayOfWeekOf d.orderOffset
    orderQuarter := orderQuarterOf d.orderOffset
    orderDayName := dayNameOf (orderDayOfWeekOf d.orderOffset) }

/-- A filter specification as read from the sidebar of app.py lines 76-93:
three selectors defaulting to `"All"` and two date pickers (as epoch
offsets). -/
structure FilterSpec where
  category : String
  city : String
  segment : String
  startDate : ℤ
  endDate : ℤ
deriving DecidableEq, Repr

/-- The filter application of app.py lines 96-110: each selector filters by
equality unless it is `"All"`, then the order date is kept within
`[startDate, endDate]` (both comparisons inclusive, line 108-109). -/
def applyFilters (s : FilterSpec) (df : List Record) : List Record :=
  let d1 := if s.category = "All" then df else
    df.filter (fun r => r.category == s.category)
  let d2 := if s.city = "All" then d1 else
    d1.filter (fun r => r.city == s.city)
  let d3 := if s.segment = "All" then d2 else
    d2.filter (fun r => r.customerSegment == s.segment)
  d3.filter (fun r =>
    decide (s.startDate ≤ r.orderDate) && decide (r.orderDate ≤ s.endDate))

/-- The spec's filter contract, stated as one conjunctive predicate (spec
§4.2): each non-"All" field matches by equality, the order date lies within
the inclusive range, and all constraints are ANDed. -/
def matchesSpec (s : FilterSpec) (r : Record) : Bool :=
  (s.category == "All" || r.category == s.category) &&
  (s.city == "All" || r.city == s.city) &&
  (s.segment == "All" || r.customerSegment == s.segment) &&
  decide (s.startDate ≤ r.orderDate) && decide (r.orderDate ≤ s.endDate)

/-- The standalone category filter step of app.py lines 98-99. -/
def filterByCategory (sel : String) (df : List Record) : List Record :=
  if sel = "All" then df else df.filter (fun r => r.category == sel)

/-- The standalone city filter step of app.py lines 101-102. -/
def filterByCity (sel : String) (df : List Record) : List Record :=
  if sel = "All" then df else df.filter (fun r => r.city == sel)

/-- The `Total Sales` KPI of app.py line 118:
`filtered_df[ "Final_Price" ].sum()`. -/
def totalSales (df : List Record) : ℚ := (df.map Record.finalPrice).sum

/-- Arithmetic mean of a column (`ℚ` convention: the empty mean is `0/0 = 0`;
the embedding only relies on means of nonempty columns). -/
def colMean (xs : List ℚ) : ℚ := xs.sum / xs.length

/-- The distinct categories present in a dataset, in order of first
appearance: the group keys of `filtered_df.groupby("Category")`. -/
def categoryKeys (df : List Record) : List String :=
  (df.map Record.category).dedup

/-- One group's aggregate of `groupby("Category")["Final_Price"].sum()`
(app.py lines 156 and 404): the final-price sum of the rows whose category
is `c`. -/
def categorySales (df : List Record) (c : String) : ℚ :=
  totalSales (df.filter (fun r => r.category == c))

/-- One group's aggregate of `groupby("Category")["Profit_Margin"].sum()`
(app.py line 405). -/
def categoryProfit (df : List Record) (c : String) : ℚ :=
  ((df.filter (fun r => r.category == c)).map Record.profitMargin).sum

/-- One group's aggregate of `groupby("Category")["Customer_Rating"].mean()`
(app.py line 406). -/
def categoryRatingMean (df : List Record) (c : String) : ℚ :=
  colMean ((df.filter (fun r => r.category == c)).map
    (fun r => (r.customerRating : ℚ)))

/-- A grouped series `groupby("Category")[col].agg()` as an association list
keyed by the distinct categories. -/
def groupbyCategory (agg : List Record → String → ℚ) (df : List Record) :
    List (String × ℚ) :=
  (categoryKeys df).map (fun c => (c, agg df c))

/-- `Series.idxmax()` (app.py lines 404-406): the first key attaining the
maximal value; pandas raises `ValueError` on an empty series, modelled as
`none`. -/
def idxmax (l : List (String × ℚ)) : Option String :=
  match l with
  | [] => none
  | p :: rest =>
      some (rest.foldl (fun best q => if q.2 > best.2 then q else best) p).1

/-- `Series.mode()` (app.py line 414): the values of maximal multiplicity.
On an empty series the result is empty. -/
def modeValues (l : List String) : List String :=
  l.dedup.filter (fun x => l.dedup.all (fun y => decide (l.count y ≤ l.count x)))

/-- `filtered_df["Payment_Method"].mode()[0]` (app.py line 414): pandas
raises `KeyError` when the mode series is empty (empty filtered set),
modelled as `none`. -/
def modalPaymentMethod (df : List Record) : Option String :=
  (modeValues (df.map Record.paymentMethod)).head?

/-- The numeric columns of the correlation heatmap, in the order of
`numeric_cols` (app.py lines 364-365). -/
def numericField : Fin 7 → Record → ℚ
  | 0 => Record.productPrice
  | 1 => fun r => (r.quantity : ℚ)
  | 2 => fun r => (r.discountPercent : ℚ)
  | 3 => Record.finalPrice
  | 4 => fun r => (r.customerRating : ℚ)
  | 5 => fun r => (r.deliveryDays : ℚ)
  | 6 => Record.profitMargin

/-- One numeric column of the filtered dataset. -/
def column (df : List Record) (i : Fin 7) : List ℚ := df.map (numericField i)

/-- Sum of products of deviations from the mean,
`Σ (xᵢ - x̄)(yᵢ - ȳ)`, the accumulator of pandas' `nancorr`;
`sdm xs xs` is the sum of squared deviations of `xs`. -/
def sdm (xs ys : List ℚ) : ℚ :=
  ((xs.zip ys).map (fun p => (p.1 - colMean xs) * (p.2 - colMean ys))).sum

/-- Pairwise Pearson coefficient as computed by `DataFrame.corr()` (app.py
line 366), i.e. pandas `nancorr`: `Σdxdy / sqrt(Σdx² · Σdy²)`, with `NaN`
(modelled `none`) when there are fewer than `min_periods = 1` observations
or the divisor `sqrt(Σdx² · Σdy²)` is zero — the sums of squares are
nonnegative, so the divisor vanishes exactly when one of them is zero. -/
noncomputable def pearson (xs ys : List ℚ) : Option ℝ :=
  if xs.length = 0 ∨ sdm xs xs = 0 ∨ sdm ys ys = 0 then none
  else some ((sdm xs ys : ℝ) / Real.sqrt ((sdm xs xs : ℝ) * (sdm ys ys : ℝ)))

/-- Entry `(i, j)` of the correlation matrix `corr_matrix` of app.py
line 366 over the filtered dataset. -/
noncomputable def corrMatrix (df : List Record) (i j : Fin 7) : Option ℝ :=
  pearson (column df i) (column df j)

/-- A concrete draw tuple the generator's sampling can produce (a Books
order at price 100, no discount). -/
def sampleDraws0 : Draws :=
  { i := 0, category := "Books", subcategory := "Fiction", price := 100
    quantity := 1, discountPercent := 0, rating := 5, reviewLength := "Short"
    deliveryDays := 3, deliveryStatus := "On Time", returnStatus := "No"
    customerSegment := "New", paymentMethod := "UPI", city := "Mumbai"
    orderOffset := 0, profitFactor := 1/4 }

/-- A second producible draw tuple with a different price (for variance). -/
def sampleDraws1 : Draws :=
  { i := 1, category := "Books", subcategory := "Comics", price := 200
    quantity := 1, discountPercent := 0, rating := 4, reviewLength := "Long"
    deliveryDays := 5, deliveryStatus := "Delayed", returnStatus := "No"
    customerSegment := "Prime", paymentMethod := "Credit Card", city := "Delhi"
    orderOffset := 1, profitFactor := 3/10 }

/-- A producible draw tuple whose price has a fractional part
(price 100.123, quantity 3, 5% discount). -/
def sampleDrawsFrac : Draws :=
  { i := 2, category := "Books", subcategory := "Educational"
    price := 100123/1000, quantity := 3, discountPercent := 5, rating := 3
    reviewLength := "Medium", deliveryDays := 2, deliveryStatus := "Early"
    returnStatus := "No", customerSegment := "Regular"
    paymentMethod := "Amazon Pay", city := "Pune"
    orderOffset := 10, profitFactor := 1/5 }

/-- The filter specification with every selector at its `"All"` default and
the widest date range the generator can produce. -/
def allSpec : FilterSpec :=
  { category := "All", city := "All", segment := "All"
    startDate := 0, endDate := 365 }

/-- A filter specification whose start date is strictly after its end date. -/
def emptySpec : FilterSpec :=
  { category := "All", city := "All", segment := "All"
    startDate := 5, endDate := 3 }

/-! ### Helper lemmas -/

/-- The sequential filter steps of app.py lines 96-110 compute one
conjunctive filter (shared helper). -/
theorem applyFilters_eq_filter (s : FilterSpec) (df : List Record) :
    applyFilters s df = df.filter (matchesSpec s) := by
  unfold applyFilters
  by_cases hc : s.category = "All" <;>
    by_cases hv : s.city = "All" <;>
      by_cases hs : s.segment = "All" <;>
        simp only [hc, hv, hs, if_true, if_false, ite_true, ite_false,
          List.filter_filter] <;>
        refine List.filter_congr (fun r hr => ?_) <;>
        simp [matchesSpec, hc, hv, hs, beq_eq_decide, Bool.and_comm,
          Bool.and_left_comm, Bool.and_assoc]

/-- Records surviving the filters are records of the base dataset (shared
helper). -/
theorem applyFilters_subset (s : FilterSpec) (df : List Record) :
    ∀ r ∈ applyFilters s df, r ∈ df := by
  intro r hr
  rw [applyFilters_eq_filter] at hr
  exact (List.mem_filter.mp hr).1

/-- Half-even rounding moves a rational down by at most 1/2. -/
theorem roundHalfEven_ge (q : ℚ) : q - 1/2 ≤ (roundHalfEven q : ℚ) := by
  unfold roundHalfEven
  split
  · rename_i h
    split
    · linarith [h]
    · push_cast
      linarith [h]
  · have h := (abs_le.mp (abs_sub_round q)).2
    linarith

/-- Rounding to two decimals moves a rational down by at most 1/100. -/
theorem round2_ge (q : ℚ) : q - 1/100 ≤ round2 q := by
  unfold round2
  have h := roundHalfEven_ge (q * 100)
  linarith

/-- Evaluation rule for half-even rounding away from a tie: a rational
strictly within 1/2 of the integer `n` rounds to `n`. -/
theorem roundHalfEven_eq_of {q : ℚ} {n : ℤ} (h1 : (n : ℚ) - 1/2 < q)
    (h2 : q < (n : ℚ) + 1/2) : roundHalfEven q = n := by
  have hnot : ¬ q - ⌊q⌋ = 1/2 := by
    intro htie
    rcases le_or_lt ((n : ℚ)) ((⌊q⌋ : ℤ) : ℚ) with hc | hc
    · linarith
    · have hle : (⌊q⌋ : ℚ) + 1 ≤ (n : ℚ) := by
        have : ⌊q⌋ + 1 ≤ n := Int.add_one_le_iff.mpr (by exact_mod_cast hc)
        exact_mod_cast this
      linarith
  unfold roundHalfEven
  rw [if_neg hnot, round_eq]
  rw [Int.floor_eq_iff]
  constructor
  · linarith
  · linarith

/-- The squared-deviation sum of a one-element column vanishes. -/
theorem sdm_singleton (x : ℚ) : sdm [x] [x] = 0 := by
  simp [sdm, colMean]

/-- Price range lookup for the Books category (generate_amazon_data.py
lines 45-46). -/
theorem priceRange_books : priceRange "Books" = (100, 2000) := rfl

/-- Every category price range of generate_amazon_data.py lines 41-50 starts
at 100 or above. -/
theorem priceRange_lower (cat : String) : 100 ≤ (priceRange cat).1 := by
  unfold priceRange
  split_ifs <;> norm_num

/-- Adding a row adds its final price to the total (shared helper). -/
theorem totalSales_cons (r : Record) (df : List Record) :
    totalSales (r :: df) = r.finalPrice + totalSales df := by
  simp [totalSales]

/-- Fiberwise sum over any key set covering the dataset's categories equals
the grand total (shared helper for the groupby partition argument). -/
theorem sum_categorySales_covering (df : List Record) (cats : Finset String)
    (h : ∀ r ∈ df, r.category ∈ cats) :
    ∑ c ∈ cats, categorySales df c = totalSales df := by
  induction df with
  | nil => simp [categorySales, totalSales]
  | cons r df ih =>
    have hr : r.category ∈ cats := h r (List.mem_cons_self r df)
    have hdf : ∀ x ∈ df, x.category ∈ cats := fun x hx =>
      h x (List.mem_cons_of_mem r hx)
    have key : ∀ c ∈ cats,
        categorySales (r :: df) c =
          categorySales df c + (if r.category = c then r.finalPrice else 0) := by
      intro c _
      unfold categorySales
      rw [List.filter_cons]
      by_cases hrc : r.category = c
      · simp [hrc, totalSales_cons]
        ring
      · simp [beq_eq_decide, hrc]
    calc ∑ c ∈ cats, categorySales (r :: df) c
        = ∑ c ∈ cats,
            (categorySales df c + if r.category = c then r.finalPrice else 0) :=
          Finset.sum_congr rfl key
      _ = (∑ c ∈ cats, categorySales df c) +
            ∑ c ∈ cats, (if r.category = c then r.finalPrice else 0) :=
          Finset.sum_add_distrib
      _ = totalSales df + r.finalPrice := by
          rw [ih hdf, Finset.sum_ite_eq cats r.category fun _ => r.finalPrice,
            if_pos hr]
      _ = totalSales (r :: df) := by
          rw [totalSales_cons]; ring

/-- A pair drawn from a list zipped with itself has equal components. -/
theorem zip_self_eq {p : ℚ × ℚ} {xs : List ℚ} (h : p ∈ xs.zip xs) :
    p.1 = p.2 := by
  induction xs with
  | nil => simp [List.zip] at h
  | cons x xs ih =>
    rw [List.zip_cons_cons] at h
    rcases List.mem_cons.mp h with h1 | h2
    · rw [h1]
    · exact ih h2

/-- The sum of squared deviations of a column is nonnegative. -/
theorem sdm_self_nonneg (xs : List ℚ) : 0 ≤ sdm xs xs := by
  unfold sdm
  apply List.sum_nonneg
  intro a ha
  rcases List.mem_map.mp ha with ⟨p, hp, rfl⟩
  rw [zip_self_eq hp]
  exact mul_self_nonneg _

/-- The deviation-product sum is symmetric in its two columns. -/
theorem sdm_comm (xs ys : List ℚ) : sdm xs ys = sdm ys xs := by
  unfold sdm
  rw [← List.zip_swap ys xs, List.map_map]
  have hf : ((fun p : ℚ × ℚ => (p.1 - colMean xs) * (p.2 - colMean ys)) ∘
        Prod.swap) =
      fun p : ℚ × ℚ => (p.1 - colMean ys) * (p.2 - colMean xs) := by
    funext p
    simp only [Function.comp_apply, Prod.fst_swap, Prod.snd_swap]
    ring
  rw [hf]

/-- Self-correlation is 1 whenever the column's squared-deviation sum does
not vanish (shared helper for the diagonal of the heatmap). -/
theorem pearson_self (xs : List ℚ) (h : sdm xs xs ≠ 0) :
    pearson xs xs = some 1 := by
  have hpos : 0 < sdm xs xs := lt_of_le_of_ne (sdm_self_nonneg xs) (Ne.symm h)
  have hx : ¬ xs.length = 0 := by
    intro h0
    apply h
    rw [List.length_eq_zero.mp h0]
    rfl
  unfold pearson
  rw [if_neg (by push_neg; exact ⟨hx, h, h⟩)]
  have hR : (0 : ℝ) < (sdm xs xs : ℝ) := by exact_mod_cast hpos
  rw [Real.sqrt_mul_self hR.le, div_self hR.ne']

/-- Under the generator's sampling ranges the exact final price of a record
is at least 70: the price is at least 100 (lowest price-range bound, Books),
the quantity at least 1, and at most 30 percent is discounted. -/
theorem exactFinalPrice_ge (d : Draws) (h : ValidDraws d) :
    70 ≤ exactFinalPrice d := by
  obtain ⟨hp1, _, hq1, _, hdisc, _⟩ := h
  have hp100 : (100 : ℚ) ≤ d.price := le_trans (priceRange_lower d.category) hp1
  have hq : (1 : ℚ) ≤ (d.quantity : ℚ) := by exact_mod_cast hq1
  have hd30 : (d.discountPercent : ℚ) ≤ 30 := by
    have : d.discountPercent ≤ 30 := by
      simp only [List.mem_cons, List.not_mem_nil, or_false] at hdisc
      rcases hdisc with h | h | h | h | h | h | h <;> omega
    exact_mod_cast this
  have hd0 : (0 : ℚ) ≤ (d.discountPercent : ℚ) := by positivity
  have hpq : (100 : ℚ) ≤ d.price * d.quantity := by nlinarith
  have key : 100 * 70 ≤ d.price * d.quantity * (100 - d.discountPercent) := by
    have h70 : (70 : ℚ) ≤ 100 - d.discountPercent := by linarith
    nlinarith
  unfold exactFinalPrice exactDiscountAmount
  linarith [key]



/-! ### Claim theorems -/

/-- C1: the spec demands that on an empty filtered set every aggregate view
degrades gracefully ("no data") instead of raising; but the Key Insights of
app.py lines 404-406 call `idxmax()` on an empty grouped series (pandas
raises `ValueError`) and line 414 indexes `mode()[0]` on an empty mode
series (pandas raises `KeyError`) — both modelled as `none`.  At the
concrete empty filter combination (start date after end date) the filtered
set is empty and the argmax-category-by-sales, argmax-by-profit,
argmax-by-rating and modal-payment-method insights all reach the erroring
state. -/
theorem c1_empty_filter_insights_error :
    applyFilters emptySpec [mkRecord sampleDraws0] = [] ∧
    idxmax (groupbyCategory categorySales
      (applyFilters emptySpec [mkRecord sampleDraws0])) = none ∧
    idxmax (groupbyCategory categoryProfit
      (applyFilters emptySpec [mkRecord sampleDraws0])) = none ∧
    idxmax (groupbyCategory categoryRatingMean
      (applyFilters emptySpec [mkRecord sampleDraws0])) = none ∧
    modalPaymentMethod (applyFilters emptySpec [mkRecord sampleDraws0]) = none := by
  decide

/-- C2 (counterexample): the stored columns of the row generated from the
draw tuple `sampleDrawsFrac` (price 100.123, quantity 3, discount 5 percent,
a realizable generator draw) violate the claimed identity between stored
values: `Final_Price` is 285.35 while
`Product_Price*Quantity - Discount_Amount` is 285.34, and `Discount_Amount`
is 15.02 while `Product_Price*Quantity*Discount_Percent/100` is 15.018,
because the three columns are rounded independently. -/
theorem c2_stored_identity_fails :
    ValidDraws sampleDrawsFrac ∧
    ¬((mkRecord sampleDrawsFrac).finalPrice =
        (mkRecord sampleDrawsFrac).productPrice *
          (mkRecord sampleDrawsFrac).quantity -
          (mkRecord sampleDrawsFrac).discountAmount ∧
      (mkRecord sampleDrawsFrac).discountAmount =
        (mkRecord sampleDrawsFrac).productPrice *
          (mkRecord sampleDrawsFrac).quantity *
          (mkRecord sampleDrawsFrac).discountPercent / 100) := by
  have hP : (mkRecord sampleDrawsFrac).productPrice = 2503/25 := by
    show round2 (100123/1000 : ℚ) = 2503/25
    unfold round2
    rw [show roundHalfEven (100123/1000 * 100 : ℚ) = 10012 from
      roundHalfEven_eq_of (by norm_num) (by norm_num)]
    norm_num
  have hD : (mkRecord sampleDrawsFrac).discountAmount = 751/50 := by
    show round2 (exactDiscountAmount sampleDrawsFrac) = 751/50
    unfold round2
    rw [show roundHalfEven (exactDiscountAmount sampleDrawsFrac * 100) = 1502 from
      roundHalfEven_eq_of
        (by norm_num [exactDiscountAmount, sampleDrawsFrac])
        (by norm_num [exactDiscountAmount, sampleDrawsFrac])]
    norm_num
  have hF : (mkRecord sampleDrawsFrac).finalPrice = 5707/20 := by
    show round2 (exactFinalPrice sampleDrawsFrac) = 5707/20
    unfold round2
    rw [show roundHalfEven (exactFinalPrice sampleDrawsFrac * 100) = 28535 from
      roundHalfEven_eq_of
        (by norm_num [exactFinalPrice, exactDiscountAmount, sampleDrawsFrac])
        (by norm_num [exactFinalPrice, exactDiscountAmount, sampleDrawsFrac])]
    norm_num
  have hQ : (mkRecord sampleDrawsFrac).quantity = 3 := rfl
  have hd5 : (mkRecord sampleDrawsFrac).discountPercent = 5 := rfl
  constructor
  · norm_num [ValidDraws, sampleDrawsFrac, priceRange_books]
  · rw [hP, hD, hF, hQ, hd5]
    norm_num

/-- C2 (amended): the exact, pre-rounding final price of every generated
record equals price×quantity − price×quantity×discount_percent/100 and is
nonnegative; `Product_Price`, `Discount_Amount` and `Final_Price` are stored
as independent 2-decimal roundings of their exact values (so the identity is
exact before rounding, not between the stored columns). -/
theorem c2_exact_price_identity (d : Draws) (h : ValidDraws d) :
    exactFinalPrice d =
      d.price * d.quantity - d.price * d.quantity * d.discountPercent / 100 ∧
    0 ≤ exactFinalPrice d ∧
    (mkRecord d).productPrice = round2 d.price ∧
    (mkRecord d).discountAmount = round2 (exactDiscountAmount d) ∧
    (mkRecord d).finalPrice = round2 (exactFinalPrice d) ∧
    0 ≤ (mkRecord d).finalPrice := by
  refine ⟨rfl, ?_, rfl, rfl, rfl, ?_⟩
  · linarith [exactFinalPrice_ge d h]
  · have h1 := round2_ge (exactFinalPrice d)
    have h2 := exactFinalPrice_ge d h
    have h3 : (mkRecord d).finalPrice = round2 (exactFinalPrice d) := rfl
    rw [h3]
    linarith

/-- C2 (witness): the amended statement evaluated at the concrete draw
tuple `sampleDraws0`. -/
theorem c2_exact_price_identity_witness :
    ValidDraws sampleDraws0 ∧ 0 ≤ (mkRecord sampleDraws0).finalPrice :=
  ⟨by norm_num [ValidDraws, sampleDraws0, priceRange_books],
    (c2_exact_price_identity sampleDraws0
      (by norm_num [ValidDraws, sampleDraws0, priceRange_books])).2.2.2.2.2⟩

/-- C3: the sequential filter application of app.py lines 96-110 returns
exactly the rows satisfying the conjunction of the filter contract: each
non-"All" selector matches by equality and the order date lies within the
inclusive date range; equivalently membership in the filtered set is the
AND of the five constraints. -/
theorem c3_filter_contract (s : FilterSpec) (df : List Record) :
    applyFilters s df = df.filter (matchesSpec s) ∧
    ∀ r : Record, r ∈ applyFilters s df ↔
      r ∈ df ∧ (s.category = "All" ∨ r.category = s.category) ∧
        (s.city = "All" ∨ r.city = s.city) ∧
        (s.segment = "All" ∨ r.customerSegment = s.segment) ∧
        s.startDate ≤ r.orderDate ∧ r.orderDate ≤ s.endDate := by
  refine ⟨applyFilters_eq_filter s df, fun r => ?_⟩
  rw [applyFilters_eq_filter, List.mem_filter]
  simp only [matchesSpec, beq_eq_decide, Bool.and_eq_true, Bool.or_eq_true,
    decide_eq_true_eq]
  tauto

/-- C4: when the start date is strictly after the end date no order date can
lie in the inclusive range, so the filtered set is empty. -/
theorem c4_reversed_range_empty (s : FilterSpec) (df : List Record)
    (h : s.endDate < s.startDate) : applyFilters s df = [] := by
  rw [applyFilters_eq_filter]
  refine List.filter_eq_nil_iff.mpr fun r hr => ?_
  intro hx
  simp only [matchesSpec, Bool.and_eq_true, decide_eq_true_eq] at hx
  omega

/-- C4 (witness): the reversed-range specification `emptySpec`
(start 5, end 3) empties a concrete one-row dataset. -/
theorem c4_reversed_range_empty_witness :
    emptySpec.endDate < emptySpec.startDate ∧
    applyFilters emptySpec [mkRecord sampleDraws1] = [] :=
  ⟨by decide, c4_reversed_range_empty emptySpec [mkRecord sampleDraws1] (by decide)⟩

/-- C5: the category filter step and the city filter step of app.py
lines 98-102 commute: both orders produce the same filtered list. -/
theorem c5_category_city_comm (cat city : String) (df : List Record) :
    filterByCategory cat (filterByCity city df) =
      filterByCity city (filterByCategory cat df) := by
  unfold filterByCategory filterByCity
  by_cases h1 : cat = "All" <;> by_cases h2 : city = "All"
  all_goals
    simp only [h1, h2, if_true, if_false, ite_true, ite_false,
      List.filter_filter]
  all_goals
    first
      | rfl
      | exact List.filter_congr fun r _ => Bool.and_comm _ _

/-- C6: summing the `Sales by Category` grouped aggregate (app.py line 156)
over its groups gives the `Total Sales` KPI (app.py line 118): the category
fibers partition the dataset. -/
theorem c6_category_partition (df : List Record) :
    ((groupbyCategory categorySales df).map Prod.snd).sum = totalSales df := by
  have hmap : (groupbyCategory categorySales df).map Prod.snd =
      (categoryKeys df).map (categorySales df) := by
    simp [groupbyCategory]
  have hnd : (categoryKeys df).Nodup := List.nodup_dedup _
  rw [hmap, ← List.sum_toFinset _ hnd]
  refine sum_categorySales_covering df _ fun r hr => ?_
  rw [List.mem_toFinset]
  unfold categoryKeys
  rw [List.mem_dedup]
  exact List.mem_map_of_mem Record.category hr

/-- C7: every generated record satisfies delivery date = order date +
delivery days (generate_amazon_data.py line 90), and the presentation
layer's filtering never alters a record: every row of a filtered set is a
row of the base set, unchanged. -/
theorem c7_delivery_invariant :
    (∀ d : Draws, (mkRecord d).deliveryDate =
      (mkRecord d).orderDate + ((mkRecord d).deliveryDays : ℤ)) ∧
    (∀ (s : FilterSpec) (df : List Record), ∀ r ∈ applyFilters s df, r ∈ df) :=
  ⟨fun _ => rfl, applyFilters_subset⟩

/-- C7 (witness): the invariant and the filter-stability at a concrete
record and the all-pass filter specification. -/
theorem c7_delivery_invariant_witness :
    mkRecord sampleDraws0 ∈ [mkRecord sampleDraws0] :=
  c7_delivery_invariant.2 allSpec [mkRecord sampleDraws0] (mkRecord sampleDraws0)
    (List.Mem.head _)

/-- C8 (counterexample): a filtered dataset with exactly one row (hence at
least one row) has zero squared deviation in every column, so pandas'
`corr()` yields NaN — modelled `none` — on the diagonal instead of the
claimed 1.0. -/
theorem c8_single_row_diag_nan :
    1 ≤ ([mkRecord sampleDraws0] : List Record).length ∧
    corrMatrix [mkRecord sampleDraws0] 0 0 ≠ some 1 := by
  refine ⟨by simp, ?_⟩
  have hz : sdm (column [mkRecord sampleDraws0] 0)
      (column [mkRecord sampleDraws0] 0) = 0 :=
    sdm_singleton ((mkRecord sampleDraws0).productPrice)
  unfold corrMatrix pearson
  rw [if_pos (Or.inr (Or.inl hz))]
  exact fun hcon => Option.noConfusion hcon

/-- C8 (amended): the correlation matrix of app.py line 366 is symmetric for
every filtered dataset, and a diagonal entry equals 1.0 whenever its
column's squared-deviation sum is nonzero (at least two rows with distinct
values in that column); with one row, or a constant column, that diagonal
entry is NaN instead. -/
theorem c8_corr_symm_diag :
    (∀ (df : List Record) (i j : Fin 7),
      corrMatrix df i j = corrMatrix df j i) ∧
    (∀ (df : List Record) (i : Fin 7),
      sdm (column df i) (column df i) ≠ 0 → corrMatrix df i i = some 1) := by
  constructor
  · intro df i j
    unfold corrMatrix pearson
    have hlen : (column df i).length = (column df j).length := by
      simp [column]
    have hcond : ((column df i).length = 0 ∨
        sdm (column df i) (column df i) = 0 ∨
        sdm (column df j) (column df j) = 0) ↔
        ((column df j).length = 0 ∨
        sdm (column df j) (column df j) = 0 ∨
        sdm (column df i) (column df i) = 0) := by
      rw [hlen]
      tauto
    refine if_congr hcond rfl ?_
    rw [sdm_comm (column df i) (column df j)]
    rw [mul_comm ((sdm (column df i) (column df i) : ℚ) : ℝ)
      ((sdm (column df j) (column df j) : ℚ) : ℝ)]
  · intro df i h
    exact pearson_self _ h

/-- C8 (witness): the amended statement at a concrete two-row dataset whose
price column has nonzero variance. -/
theorem c8_corr_symm_diag_witness :
    corrMatrix [mkRecord sampleDraws0, mkRecord sampleDraws1] 0 0 = some 1 :=
  c8_corr_symm_diag.2 [mkRecord sampleDraws0, mkRecord sampleDraws1] 0 (by
    have h100 : round2 (100 : ℚ) = 100 := by
      unfold round2
      rw [show roundHalfEven ((100 : ℚ) * 100) = 10000 from
        roundHalfEven_eq_of (by norm_num) (by norm_num)]
      norm_num
    have h200 : round2 (200 : ℚ) = 200 := by
      unfold round2
      rw [show roundHalfEven ((200 : ℚ) * 100) = 20000 from
        roundHalfEven_eq_of (by norm_num) (by norm_num)]
      norm_num
    have hcol : column [mkRecord sampleDraws0, mkRecord sampleDraws1] 0 =
        [100, 200] := by
      show [round2 (100 : ℚ), round2 (200 : ℚ)] = [100, 200]
      rw [h100, h200]
    rw [hcol]
    norm_num [sdm, colMean, List.zip_cons_cons])

/-- C9: the derived columns of generate_amazon_data.py lines 121-129 are
pure functions of the order date (records agreeing on the order date agree
on all four derived columns), and any record with order date 2023-01-02
(offset 1 from the epoch) has day name Monday, month 1 and quarter 1. -/
theorem c9_derived_date_columns :
    (∀ d e : Draws, (mkRecord d).orderDate = (mkRecord e).orderDate →
      (mkRecord d).orderMonth = (mkRecord e).orderMonth ∧
      (mkRecord d).orderDayOfWeek = (mkRecord e).orderDayOfWeek ∧
      (mkRecord d).orderQuarter = (mkRecord e).orderQuarter ∧
      (mkRecord d).orderDayName = (mkRecord e).orderDayName) ∧
    (∀ d : Draws, d.orderOffset = 1 →
      (mkRecord d).orderDayName = "Monday" ∧
      (mkRecord d).orderMonth = 1 ∧ (mkRecord d).orderQuarter = 1) := by
  constructor
  · intro d e h
    have hoo : d.orderOffset = e.orderOffset := by
      simpa [mkRecord] using h
    simp [mkRecord, hoo]
  · intro d h
    refine ⟨?_, ?_, ?_⟩ <;>
      simp only [mkRecord, h] <;> decide

/-- C9 (witness): both parts at concrete draws; `sampleDraws1` has order
offset 1, i.e. order date 2023-01-02. -/
theorem c9_derived_date_columns_witness :
    (mkRecord sampleDraws0).orderMonth = (mkRecord sampleDraws0).orderMonth ∧
    (mkRecord sampleDraws1).orderDayName = "Monday" :=
  ⟨(c9_derived_date_columns.1 sampleDraws0 sampleDraws0 rfl).1,
    (c9_derived_date_columns.2 sampleDraws1 rfl).1⟩

/-- C10: for every draw tuple the generator's sampling can produce, the
stored final price is strictly positive: the price is at least 100, the
quantity at least 1, the discount at most 30 percent, so the exact final
price is at least 70 and survives 2-decimal rounding strictly positive. -/
theorem c10_final_price_pos (d : Draws) (h : ValidDraws d) :
    0 < (mkRecord d).finalPrice := by
  have h1 := round2_ge (exactFinalPrice d)
  have h2 := exactFinalPrice_ge d h
  have h3 : (mkRecord d).finalPrice = round2 (exactFinalPrice d) := rfl
  rw [h3]
  linarith

/-- C10 (witness): strict positivity at the concrete draw tuple
`sampleDraws1`. -/
theorem c10_final_price_pos_witness :
    ValidDraws sampleDraws1 ∧ 0 < (mkRecord sampleDraws1).finalPrice :=
  ⟨by norm_num [ValidDraws, sampleDraws1, priceRange_books],
    c10_final_price_pos sampleDraws1
      (by norm_num [ValidDraws, sampleDraws1, priceRange_books])⟩
